import Mathlib

/-!
Shallow embedding of the `currently_playing` crate: the media data model
(`src/lib.rs`), the hybrid listener arbitration (`src/listener.rs`), the
websocket push-protocol session handling (`src/ws.rs`), and the MPRIS
background poller's event differ and sleep computation
(`src/platform/linux.rs`).

Durations are modelled as natural numbers of milliseconds, matching the
crate's wire format (serde `DurationMilliSeconds<u64>`). Byte vectors are
lists of naturals.
-/

/-- State of what is currently playing (`MediaState` in `src/lib.rs`). -/
inductive MediaState
  | playing
  | paused
  | stopped
deriving DecidableEq, Repr

/-- Image format (`ImageFormat` in `src/lib.rs`). -/
inductive ImageFormat
  | png
  | jpeg
  | webp
  | other (mime : String)
deriving DecidableEq, Repr

/-- Media image data (`MediaImage` in `src/lib.rs`). -/
structure MediaImage where
  format : ImageFormat
  data : List Nat
deriving DecidableEq, Repr

/-- Metadata of what is currently playing (`MediaMetadata` in `src/lib.rs`).
Field defaults mirror Rust's `Default` derive: unset optionals, `Stopped`
state, zero durations, empty title and artists. -/
structure MediaMetadata where
  uid : Option String := none
  uri : Option String := none
  state : MediaState := .stopped
  duration : Nat := 0
  elapsed : Nat := 0
  title : String := ""
  album : Option String := none
  artists : List String := []
  cover_url : Option String := none
  cover : Option MediaImage := none
  background_url : Option String := none
  background : Option MediaImage := none
deriving DecidableEq, Repr

/-- Field-level merge (`MediaMetadata::merge` in `src/lib.rs`). -/
def MediaMetadata.merge (self fallback : MediaMetadata) : MediaMetadata where
  uid := self.uid.or fallback.uid
  uri := self.uri.or fallback.uri
  state := self.state
  duration := if self.duration = 0 then fallback.duration else self.duration
  elapsed := if self.elapsed = 0 then fallback.elapsed else self.elapsed
  title := if self.title = "" then fallback.title else self.title
  album := self.album.or fallback.album
  artists := if self.artists = [] then fallback.artists else self.artists
  cover_url := self.cover_url.or fallback.cover_url
  cover := self.cover.or fallback.cover
  background_url := self.background_url.or fallback.background_url
  background := self.background.or fallback.background

/-- Track identity comparison (`MediaMetadata::is_different` in `src/lib.rs`). -/
def MediaMetadata.is_different (self other : MediaMetadata) : Bool :=
  let uid := self.uid.isSome && self.uid != other.uid
  let uri := self.uri.isSome && self.uri != other.uri
  let title := self.title != other.title
  let artists := self.artists != other.artists
  uid || uri || (title && artists)

/-- Media events (`MediaEvent` in `src/lib.rs`); progress carries integer
milliseconds on the wire. -/
inductive MediaEvent
  | mediaChanged (metadata : MediaMetadata)
  | stateChanged (state : MediaState)
  | progressChanged (elapsed : Nat)
deriving DecidableEq, Repr

/-- Application of one inbound event to the websocket snapshot store:
the `match event` in `background_task`, `src/ws.rs` lines 265-275. -/
def applyEvent (metadata : MediaMetadata) (event : MediaEvent) : MediaMetadata :=
  match event with
  | .mediaChanged info => info
  | .stateChanged state => { metadata with state := state }
  | .progressChanged newElapsed => { metadata with elapsed := newElapsed }

/-- The event differ of the MPRIS background poller: the `match ()` in
`background_task`, `src/platform/linux.rs` lines 195-202. `newMetadata.state`
and `newMetadata.elapsed` are the freshly fetched `state` and `elapsed`
used by the source. -/
def diffEvent (metadata newMetadata : MediaMetadata) : Option MediaEvent :=
  if metadata.is_different newMetadata then
    some (.mediaChanged newMetadata)
  else if metadata.state != newMetadata.state then
    some (.stateChanged newMetadata.state)
  else if newMetadata.state == MediaState.playing then
    some (.progressChanged newMetadata.elapsed)
  else
    none

/-- Rust's `u64::checked_div`: `none` exactly on division by zero. -/
def checkedDiv (a b : Nat) : Option Nat :=
  if b = 0 then none else some (a / b)

/-- Sleep duration between Active iterations of the MPRIS poller, in
milliseconds: `1000u64.checked_div(update_rate).unwrap_or(1)`,
`src/platform/linux.rs` line 147. -/
def waitMs (update_rate : Nat) : Nat :=
  (checkedDiv 1000 update_rate).getD 1

/-- Error taxonomy (`Error` in `src/lib.rs`), restricted to the variants the
embedded code paths can produce. -/
inductive Error
  | notExist
  | notEnabled
  | closed
  | timeout
deriving DecidableEq, Repr

/-- Websocket bind address (`WebsocketAddr` in `src/listener.rs`); socket
addresses are modelled as strings. -/
inductive WebsocketAddr
  | local (port : Nat)
  | addr (address : String)
  | dflt
deriving DecidableEq, Repr

/-- Source priority (`MediaSourcePriority` in `src/listener.rs`). -/
inductive MediaSourcePriority
  | websocket
  | system
deriving DecidableEq, Repr

/-- Listener configuration (`MediaSourceConfig` in `src/listener.rs`), with
its `Default` values; `timeout` in milliseconds. -/
structure MediaSourceConfig where
  addr : WebsocketAddr := .dflt
  priority : MediaSourcePriority := .websocket
  timeout : Nat := 5000
  update_rate : Nat := 30
  hybrid : Bool := true
  websocket_enabled : Bool := true
  system_enabled : Bool := true
deriving DecidableEq, Repr

/-- Identity of the backend remembered across polls
(`LastPlayed` in `src/listener.rs`). -/
inductive LastPlayed
  | websocket
  | system
deriving DecidableEq, Repr

/-- A running single-source backend (`MprisMediaSource` in
`src/platform/linux.rs` or `WebsocketMediaSourceBackground` in `src/ws.rs`):
its cancellation flag and the snapshot held in its store. -/
structure Backend where
  closed : Bool
  metadata : MediaMetadata
deriving DecidableEq, Repr

/-- Backend `poll_guarded`/`poll` (`src/ws.rs` lines 187-197,
`src/platform/linux.rs` lines 79-89): `Closed` once cancelled, otherwise the
current snapshot. -/
def Backend.poll (b : Backend) : Except Error MediaMetadata :=
  if b.closed then .error .closed else .ok b.metadata

/-- System backend creation (`MprisMediaSource::create`,
`src/platform/linux.rs` lines 45-69): `NotEnabled` when disabled, otherwise a
fresh backend with a default snapshot store. -/
def MprisMediaSource.create (cfg : MediaSourceConfig) : Except Error Backend :=
  if !cfg.system_enabled then .error .notEnabled
  else .ok { closed := false, metadata := {} }

/-- Websocket backend creation (`WebsocketMediaSourceBackground::create`,
`src/ws.rs` lines 157-181): `NotEnabled` when disabled, otherwise a fresh
backend with a default snapshot store. -/
def WebsocketMediaSourceBackground.create (cfg : MediaSourceConfig) :
    Except Error Backend :=
  if !cfg.websocket_enabled then .error .notEnabled
  else .ok { closed := false, metadata := {} }

/-- The hybrid listener (`MediaListener` in `src/listener.rs`). -/
structure MediaListener where
  system : Option Backend
  websocket : Option Backend
  last_played : LastPlayed
  cfg : MediaSourceConfig
deriving DecidableEq, Repr

/-- `MediaListener::create` (`src/listener.rs` lines 112-146), embedded
verbatim: note that the source gates the websocket backend on
`cfg.system_enabled` (line 125), not on `cfg.websocket_enabled`. -/
def MediaListener.create (cfg : MediaSourceConfig) : Except Error MediaListener := do
  if !cfg.system_enabled && !cfg.websocket_enabled then
    throw .notEnabled
  let system ← match cfg.system_enabled with
    | true => do
        let source ← MprisMediaSource.create cfg
        pure (some source)
    | false => pure none
  let websocket ← match cfg.system_enabled with
    | true => do
        let source ← WebsocketMediaSourceBackground.create cfg
        pure (some source)
    | false => pure none
  let last_played := match cfg.priority with
    | .websocket => LastPlayed.websocket
    | .system => LastPlayed.system
  pure { system := system, websocket := websocket, last_played := last_played, cfg := cfg }

/-- Result of a Rust call that may return, fail, or hit a `panic`-like arm
(the catch-all of the listener's dispatch match). -/
inductive Outcome (α : Type _)
  | ok (value : α)
  | err (error : Error)
  | panicked
deriving DecidableEq, Repr

/-- `MediaListener::poll` (`src/listener.rs` lines 180-234). The result pairs
the returned snapshot with the `last_played` value after the call. -/
def MediaListener.poll (l : MediaListener) : Outcome (MediaMetadata × LastPlayed) :=
  match l.cfg.priority, l.system, l.websocket with
  | .system, some system, some websocket =>
    match system.poll with
    | .error e => .err e
    | .ok system =>
      match websocket.poll with
      | .error e => .err e
      | .ok websocket =>
        match system.state, websocket.state with
        | .playing, .playing => .ok (system, .system)
        | .stopped, .playing => .ok (websocket, .websocket)
        | .paused, .playing => .ok (websocket, .websocket)
        | .playing, .stopped => .ok (system, .system)
        | .playing, .paused => .ok (system, .system)
        | _, _ =>
          match l.last_played with
          | .websocket => .ok (websocket, l.last_played)
          | .system => .ok (system, l.last_played)
  | .system, some system, none =>
    match system.poll with
    | .ok m => .ok (m, l.last_played)
    | .error e => .err e
  | .system, none, some websocket =>
    match websocket.poll with
    | .ok m => .ok (m, l.last_played)
    | .error e => .err e
  | .websocket, some system, some websocket =>
    match system.poll with
    | .error e => .err e
    | .ok system =>
      match websocket.poll with
      | .error e => .err e
      | .ok websocket =>
        match system.state, websocket.state with
        | .playing, .playing => .ok (websocket, .websocket)
        | .playing, .stopped => .ok (system, .system)
        | .playing, .paused => .ok (system, .system)
        | .stopped, .playing => .ok (websocket, .websocket)
        | .paused, .playing => .ok (websocket, .websocket)
        | _, _ =>
          match l.last_played with
          | .websocket => .ok (websocket, l.last_played)
          | .system => .ok (system, l.last_played)
  | .websocket, none, some websocket =>
    match websocket.poll with
    | .ok m => .ok (m, l.last_played)
    | .error e => .err e
  | .websocket, some system, none =>
    match system.poll with
    | .ok m => .ok (m, l.last_played)
    | .error e => .err e
  | _, none, none => .panicked

/-- `MediaListener::poll_guarded` (`src/listener.rs` lines 236-290),
embedded verbatim: in the Websocket-priority branch the source resolves the
(Playing, Playing) case to the system backend (lines 268-271), unlike
`poll`. -/
def MediaListener.poll_guarded (l : MediaListener) :
    Outcome (MediaMetadata × LastPlayed) :=
  match l.cfg.priority, l.system, l.websocket with
  | .system, some system, some websocket =>
    match system.poll with
    | .error e => .err e
    | .ok system =>
      match websocket.poll with
      | .error e => .err e
      | .ok websocket =>
        match system.state, websocket.state with
        | .playing, .playing => .ok (system, .system)
        | .stopped, .playing => .ok (websocket, .websocket)
        | .paused, .playing => .ok (websocket, .websocket)
        | .playing, .stopped => .ok (system, .system)
        | .playing, .paused => .ok (system, .system)
        | _, _ =>
          match l.last_played with
          | .websocket => .ok (websocket, l.last_played)
          | .system => .ok (system, l.last_played)
  | .system, some system, none =>
    match system.poll with
    | .ok m => .ok (m, l.last_played)
    | .error e => .err e
  | .system, none, some websocket =>
    match websocket.poll with
    | .ok m => .ok (m, l.last_played)
    | .error e => .err e
  | .websocket, some system, some websocket =>
    match system.poll with
    | .error e => .err e
    | .ok system =>
      match websocket.poll with
      | .error e => .err e
      | .ok websocket =>
        match system.state, websocket.state with
        | .playing, .playing => .ok (system, .system)
        | .playing, .stopped => .ok (system, .system)
        | .playing, .paused => .ok (system, .system)
        | .stopped, .playing => .ok (websocket, .websocket)
        | .paused, .playing => .ok (websocket, .websocket)
        | _, _ =>
          match l.last_played with
          | .websocket => .ok (websocket, l.last_played)
          | .system => .ok (system, l.last_played)
  | .websocket, none, some websocket =>
    match websocket.poll with
    | .ok m => .ok (m, l.last_played)
    | .error e => .err e
  | .websocket, some system, none =>
    match system.poll with
    | .ok m => .ok (m, l.last_played)
    | .error e => .err e
  | _, none, none => .panicked

/-- Lift a backend call's result into an `Outcome`. -/
def outcomeOfExcept : Except Error α → Outcome α
  | .ok a => .ok a
  | .error e => .err e

/-- `MediaListener::next` (`src/listener.rs` lines 292-306): dispatch over the
configured priority and present backends, with the two backends' `next`
results supplied as oracle inputs (they depend on channel timing). -/
def MediaListener.next (l : MediaListener)
    (systemNext websocketNext : Except Error MediaEvent) : Outcome MediaEvent :=
  match l.cfg.priority, l.system, l.websocket with
  | .system, some _, some _ =>
    match systemNext with
    | .ok e => .ok e
    | .error _ => outcomeOfExcept websocketNext
  | .system, some _, none => outcomeOfExcept systemNext
  | .system, none, some _ => outcomeOfExcept websocketNext
  | .websocket, some _, some _ =>
    match websocketNext with
    | .ok e => .ok e
    | .error _ => outcomeOfExcept systemNext
  | .websocket, none, some _ => outcomeOfExcept websocketNext
  | .websocket, some _, none => outcomeOfExcept systemNext
  | _, none, none => .panicked

/-- Push-protocol error kinds surfaced by `MediaConnection::next`
(`src/ws.rs` lines 63-105): a JSON parse failure (`ErrorKind::InvalidData`),
a non-text frame (`ErrorKind::Unsupported`), or a transport-level error. -/
inductive WsError
  | invalidData
  | unsupported
  | transport
deriving DecidableEq, Repr

/-- An inbound websocket frame as seen by `MediaConnection::next`. A text
frame carries the result of `serde_json::from_str::<MediaEvent>` on its
payload (`none` when the payload is malformed); other frames are non-text
messages or transport errors. -/
inductive Frame
  | text (parsed : Option MediaEvent)
  | nonText
  | transportError
deriving DecidableEq, Repr

/-- `MediaConnection::handle_message` (`src/ws.rs` lines 63-66): the parse
result of the text payload, or an `InvalidData` error. -/
def handle_message (parsed : Option MediaEvent) : Except WsError MediaEvent :=
  match parsed with
  | some event => .ok event
  | none => .error .invalidData

/-- `MediaConnection::next` (`src/ws.rs` lines 90-105) over the session's
remaining frame stream: `none` when the stream has ended, otherwise one
message result plus the still-open remainder of the stream. -/
def MediaConnection.next : List Frame → Option (Except WsError MediaEvent × List Frame)
  | [] => none
  | .text parsed :: rest => some (handle_message parsed, rest)
  | .nonText :: rest => some (.error .unsupported, rest)
  | .transportError :: rest => some (.error .transport, rest)

/-- The per-session inner loop of the websocket `background_task`
(`src/ws.rs` lines 257-276): `while let Some(Ok(event)) = connection.next()`
applies each parsed event to the snapshot store and stops at the first
frame whose result is not `Ok` (or at end of stream), returning the final
store contents. -/
def sessionLoop : List Frame → MediaMetadata → MediaMetadata
  | [], metadata => metadata
  | .text parsed :: rest, metadata =>
    match handle_message parsed with
    | .ok event => sessionLoop rest (applyEvent metadata event)
    | .error _ => metadata
  | .nonText :: _, metadata => metadata
  | .transportError :: _, metadata => metadata

/-- Modelled from the spec: the same-track relation as the spec words it,
where `uid` is compared only when both sides have one, `uri` is compared
only when both sides have one, and the pair is different when title and
artists differ simultaneously. Stated for comparison against the source's
`MediaMetadata.is_different`. -/
def sameTrackSpec (a b : MediaMetadata) : Prop :=
  (a.uid.isSome → b.uid.isSome → a.uid = b.uid) ∧
  (a.uri.isSome → b.uri.isSome → a.uri = b.uri) ∧
  ¬(a.title ≠ b.title ∧ a.artists ≠ b.artists)

instance (a b : MediaMetadata) : Decidable (sameTrackSpec a b) := by
  unfold sameTrackSpec
  infer_instance

/-! Concrete fixtures used by the claim theorems. -/

/-- A system-backend snapshot that reports Playing. -/
def sysPlayingSnap : MediaMetadata := { state := .playing, title := "S", duration := 1 }

/-- A websocket-backend snapshot that reports Playing. -/
def wsPlayingSnap : MediaMetadata := { state := .playing, title := "W", duration := 2 }

/-- A hybrid listener with Websocket priority whose two backends both report
Playing. -/
def bothPlayingListener : MediaListener where
  system := some { closed := false, metadata := sysPlayingSnap }
  websocket := some { closed := false, metadata := wsPlayingSnap }
  last_played := .websocket
  cfg := { priority := .websocket }

/-- A configuration with only the system backend enabled. -/
def sysOnlyCfg : MediaSourceConfig := { websocket_enabled := false }

/-- A configuration with neither backend enabled. -/
def bothDisabledCfg : MediaSourceConfig :=
  { websocket_enabled := false, system_enabled := false }

/-- A configuration with only the websocket backend enabled. -/
def wsOnlyCfg : MediaSourceConfig := { system_enabled := false }

/-- The listener value `MediaListener::create` produces for `wsOnlyCfg`:
both backend slots empty. -/
def wsOnlyListener : MediaListener where
  system := none
  websocket := none
  last_played := .websocket
  cfg := wsOnlyCfg

/-- Claim C1: with both backends present and both snapshots reporting
Playing under Websocket priority, `poll` returns the websocket (priority)
snapshot and records Websocket as claimed, but `poll_guarded` at the very
same listener returns the system snapshot and records System, diverging
from the claim (and from `poll`). -/
theorem c1_pollGuarded_bothPlaying_websocketPriority_returns_system :
    MediaListener.poll bothPlayingListener = .ok (wsPlayingSnap, .websocket) ∧
    MediaListener.poll_guarded bothPlayingListener = .ok (sysPlayingSnap, .system) ∧
    sysPlayingSnap ≠ wsPlayingSnap := by
  refine ⟨rfl, rfl, ?_⟩
  intro h
  exact absurd (congrArg MediaMetadata.duration h) (by decide)

/-- Claim C2: `MediaListener::create` returns `NotEnabled` for a
configuration whose system backend is enabled (only the websocket backend is
disabled), because the source gates websocket creation on
`cfg.system_enabled`; the claim holds only in the neither-enabled case. -/
theorem c2_create_notEnabled_despite_system_enabled :
    MediaListener.create bothDisabledCfg = .error .notEnabled ∧
    sysOnlyCfg.system_enabled = true ∧
    MediaListener.create sysOnlyCfg = .error .notEnabled := by
  exact ⟨rfl, rfl, rfl⟩

/-- Claim C3: `MediaListener::create` accepts a configuration with only the
websocket backend enabled but produces a listener with both backend slots
empty, so `poll`, `poll_guarded` and `next` all reach the catch-all
(`unreachable` in the source) and panic. -/
theorem c3_create_accepts_listener_whose_poll_panics :
    MediaListener.create wsOnlyCfg = .ok wsOnlyListener ∧
    MediaListener.poll wsOnlyListener = .panicked ∧
    MediaListener.poll_guarded wsOnlyListener = .panicked ∧
    MediaListener.next wsOnlyListener (.error .timeout) (.error .timeout) = .panicked := by
  exact ⟨rfl, rfl, rfl, rfl⟩

/-- A metadata value whose only non-default field is a `uid`. -/
def uidOnlyLeft : MediaMetadata := { uid := some "x" }

/-- The default metadata value: no `uid`, same (empty) title and artists as
`uidOnlyLeft`. -/
def uidAbsentRight : MediaMetadata := {}

/-- Claim C4, counterexample: when only the left side has a `uid` (and title
and artists coincide), the spec's same-track conditions hold — `uid` is
supposed to participate only when present on both sides — yet
`is_different` returns true, because the source compares `self.uid` against
`other.uid` whenever `self.uid` is present. -/
theorem c4_counterexample_uid_present_on_one_side_only :
    uidOnlyLeft.is_different uidAbsentRight = true ∧
    sameTrackSpec uidOnlyLeft uidAbsentRight := by
  exact ⟨rfl, by decide⟩

/-- Claim C4 (amended): `is_different a b` is false exactly when `a`'s `uid`,
whenever present, equals `b`'s `uid` field (including its absence), likewise
for `uri`, and it is not the case that titles and artists differ
simultaneously: the optional keys participate when present on the first
(self) side, regardless of their presence on the second. -/
theorem c4_is_different_false_characterization (a b : MediaMetadata) :
    a.is_different b = false ↔
      ((a.uid.isSome → a.uid = b.uid) ∧ (a.uri.isSome → a.uri = b.uri) ∧
        ¬(a.title ≠ b.title ∧ a.artists ≠ b.artists)) := by
  cases hu : a.uid <;> cases hr : a.uri <;>
    by_cases ht : a.title = b.title <;> by_cases ha : a.artists = b.artists <;>
      simp_all [MediaMetadata.is_different]

/-- A well-formed metadata payload carried by a valid frame. -/
def goodMeta : MediaMetadata := { title := "Y", state := .playing }

/-- A text frame whose payload fails to parse as a `MediaEvent`. -/
def malformedFrame : Frame := .text none

/-- A text frame carrying a valid `MediaChanged` event. -/
def validFrame : Frame := .text (some (.mediaChanged goodMeta))

/-- Claim C5, counterexample: after a malformed frame, `next` does return the
parse error to its caller with the rest of the stream still readable, and the
subsequent valid frame alone would update the store — but the background
session loop stops at the malformed frame, so the valid frame that follows it
is never applied to the snapshot store. -/
theorem c5_counterexample_valid_frame_after_malformed_not_applied :
    MediaConnection.next [malformedFrame, validFrame] =
      some (.error .invalidData, [validFrame]) ∧
    sessionLoop [validFrame] {} = goodMeta ∧
    sessionLoop [malformedFrame, validFrame] {} = {} ∧
    ({} : MediaMetadata) ≠ goodMeta := by
  refine ⟨rfl, rfl, rfl, ?_⟩
  intro h
  exact absurd (congrArg MediaMetadata.state h) (by decide)

/-- Claim C5 (amended): a malformed text frame yields an `InvalidData` error
returned to the immediate caller of `MediaConnection::next`, and `next`
leaves the rest of the frame stream readable (a following valid frame still
parses); but the websocket background task's session loop stops consuming
the connection at the first non-`Ok` message, so no frame after a malformed
one is applied to the snapshot store. -/
theorem c5_parse_error_scoped_to_message_but_session_loop_stops
    (rest : List Frame) (m : MediaMetadata) :
    MediaConnection.next (Frame.text none :: rest) =
      some (.error .invalidData, rest) ∧
    (∀ (event : MediaEvent) (rest2 : List Frame),
      MediaConnection.next (Frame.text (some event) :: rest2) =
        some (.ok event, rest2)) ∧
    sessionLoop (Frame.text none :: rest) m = m := by
  exact ⟨rfl, fun _ _ => rfl, rfl⟩

/-- Claim C6: `MediaChanged` replaces the entire snapshot; `StateChanged`
sets only `state`; `ProgressChanged` sets only `elapsed`, to the received
absolute value in milliseconds — in particular a `ProgressChanged 1500`
frame yields `elapsed = 1500` even when the stored duration is 300000ms. -/
theorem c6_applyEvent_field_effects (m info : MediaMetadata) (s : MediaState) (e : Nat) :
    applyEvent m (.mediaChanged info) = info ∧
    (applyEvent m (.stateChanged s)).state = s ∧
    (applyEvent m (.stateChanged s)).uid = m.uid ∧
    (applyEvent m (.stateChanged s)).uri = m.uri ∧
    (applyEvent m (.stateChanged s)).duration = m.duration ∧
    (applyEvent m (.stateChanged s)).elapsed = m.elapsed ∧
    (applyEvent m (.stateChanged s)).title = m.title ∧
    (applyEvent m (.stateChanged s)).album = m.album ∧
    (applyEvent m (.stateChanged s)).artists = m.artists ∧
    (applyEvent m (.stateChanged s)).cover_url = m.cover_url ∧
    (applyEvent m (.stateChanged s)).cover = m.cover ∧
    (applyEvent m (.stateChanged s)).background_url = m.background_url ∧
    (applyEvent m (.stateChanged s)).background = m.background ∧
    (applyEvent m (.progressChanged e)).elapsed = e ∧
    (applyEvent m (.progressChanged e)).uid = m.uid ∧
    (applyEvent m (.progressChanged e)).uri = m.uri ∧
    (applyEvent m (.progressChanged e)).state = m.state ∧
    (applyEvent m (.progressChanged e)).duration = m.duration ∧
    (applyEvent m (.progressChanged e)).title = m.title ∧
    (applyEvent m (.progressChanged e)).album = m.album ∧
    (applyEvent m (.progressChanged e)).artists = m.artists ∧
    (applyEvent m (.progressChanged e)).cover_url = m.cover_url ∧
    (applyEvent m (.progressChanged e)).cover = m.cover ∧
    (applyEvent m (.progressChanged e)).background_url = m.background_url ∧
    (applyEvent m (.progressChanged e)).background = m.background ∧
    (applyEvent { duration := 300000 } (.progressChanged 1500)).elapsed = 1500 := by
  exact ⟨rfl, rfl, rfl, rfl, rfl, rfl, rfl, rfl, rfl, rfl, rfl, rfl, rfl, rfl, rfl,
    rfl, rfl, rfl, rfl, rfl, rfl, rfl, rfl, rfl, rfl, rfl⟩

/-- Claim C7, counterexample: at `update_rate = 1001` the computed sleep is
`1000 / 1001 = 0` milliseconds, below the claimed 1ms minimum (the
`unwrap_or(1)` only covers division by zero). -/
theorem c7_counterexample_update_rate_1001_sleeps_zero :
    waitMs 1001 = 0 ∧ ¬(1 ≤ waitMs 1001) := by decide

/-- Claim C7 (amended): the sleep equals `1000 / update_rate` (integer
division) for every nonzero `update_rate` and 1ms when `update_rate = 0`;
it is at least 1ms exactly when `update_rate = 0` or `update_rate ≤ 1000`,
so rates above 1000 sleep 0ms. -/
theorem c7_waitMs_value_and_minimum (u : Nat) :
    waitMs u = (if u = 0 then 1 else 1000 / u) ∧
    (1 ≤ waitMs u ↔ (u = 0 ∨ u ≤ 1000)) := by
  have hw : waitMs u = (if u = 0 then 1 else 1000 / u) := by
    unfold waitMs checkedDiv
    by_cases h : u = 0 <;> simp [h]
  refine ⟨hw, ?_⟩
  rw [hw]
  by_cases h : u = 0
  · simp [h]
  · rw [if_neg h, Nat.le_div_iff_mul_le (Nat.pos_of_ne_zero h), one_mul]
    simp [h]

/-- Claim C8: `merge(primary, fallback)` keeps every non-empty/non-default
field of `primary`, substitutes the fallback's value for the fields of
`primary` that are empty or default (unset optionals, zero durations, empty
title, empty artists), and always takes `state` from `primary`. -/
theorem c8_merge_field_precedence (p f : MediaMetadata) :
    (p.merge f).state = p.state ∧
    (∀ x, p.uid = some x → (p.merge f).uid = some x) ∧
    (p.uid = none → (p.merge f).uid = f.uid) ∧
    (∀ x, p.uri = some x → (p.merge f).uri = some x) ∧
    (p.uri = none → (p.merge f).uri = f.uri) ∧
    (∀ x, p.album = some x → (p.merge f).album = some x) ∧
    (p.album = none → (p.merge f).album = f.album) ∧
    (∀ x, p.cover_url = some x → (p.merge f).cover_url = some x) ∧
    (p.cover_url = none → (p.merge f).cover_url = f.cover_url) ∧
    (∀ x, p.cover = some x → (p.merge f).cover = some x) ∧
    (p.cover = none → (p.merge f).cover = f.cover) ∧
    (∀ x, p.background_url = some x → (p.merge f).background_url = some x) ∧
    (p.background_url = none → (p.merge f).background_url = f.background_url) ∧
    (∀ x, p.background = some x → (p.merge f).background = some x) ∧
    (p.background = none → (p.merge f).background = f.background) ∧
    (p.duration ≠ 0 → (p.merge f).duration = p.duration) ∧
    (p.duration = 0 → (p.merge f).duration = f.duration) ∧
    (p.elapsed ≠ 0 → (p.merge f).elapsed = p.elapsed) ∧
    (p.elapsed = 0 → (p.merge f).elapsed = f.elapsed) ∧
    (p.title ≠ "" → (p.merge f).title = p.title) ∧
    (p.title = "" → (p.merge f).title = f.title) ∧
    (p.artists ≠ [] → (p.merge f).artists = p.artists) ∧
    (p.artists = [] → (p.merge f).artists = f.artists) := by
  refine ⟨rfl, ?_, ?_, ?_, ?_, ?_, ?_, ?_, ?_, ?_, ?_, ?_, ?_, ?_, ?_, ?_, ?_,
    ?_, ?_, ?_, ?_, ?_, ?_⟩ <;>
    · intros
      simp_all [MediaMetadata.merge]

/-- A primary metadata value with mixed present and default fields: `uid`
set, `uri` unset, zero duration, nonzero elapsed, empty title, non-empty
artists. -/
def pEx : MediaMetadata := { uid := some "a", elapsed := 7, artists := ["p"] }

/-- A fallback metadata value with every relevant field non-default. -/
def fEx : MediaMetadata where
  uid := some "b"
  uri := some "u"
  state := .playing
  duration := 9
  elapsed := 8
  title := "ft"
  album := some "al"
  artists := ["f"]
  cover_url := some "c"
  cover := none
  background_url := none
  background := none

/-- Witness for claim C8 at a concrete primary/fallback pair. -/
theorem c8_merge_field_precedence_witness :
    (pEx.merge fEx).state = pEx.state ∧
    (pEx.merge fEx).uid = some "a" ∧
    (pEx.merge fEx).uri = fEx.uri ∧
    (pEx.merge fEx).duration = fEx.duration ∧
    (pEx.merge fEx).elapsed = pEx.elapsed ∧
    (pEx.merge fEx).title = fEx.title ∧
    (pEx.merge fEx).artists = pEx.artists :=
  ⟨(c8_merge_field_precedence pEx fEx).1,
   (c8_merge_field_precedence pEx fEx).2.1 "a" rfl,
   (c8_merge_field_precedence pEx fEx).2.2.2.2.1 rfl,
   (c8_merge_field_precedence pEx fEx).2.2.2.2.2.2.2.2.2.2.2.2.2.2.2.2.1 rfl,
   (c8_merge_field_precedence pEx fEx).2.2.2.2.2.2.2.2.2.2.2.2.2.2.2.2.2.1
     (by decide),
   (c8_merge_field_precedence pEx fEx).2.2.2.2.2.2.2.2.2.2.2.2.2.2.2.2.2.2.2.2.1
     rfl,
   (c8_merge_field_precedence pEx fEx).2.2.2.2.2.2.2.2.2.2.2.2.2.2.2.2.2.2.2.2.2.1
     (by decide)⟩

/-- Claim C9: the event differ emits at most one event per refresh, chosen
by fixed priority — `MediaChanged(new)` when the snapshots identify
different tracks; else `StateChanged` when the states differ; else
`ProgressChanged(elapsed)` when the new state is Playing; else nothing. -/
theorem c9_diffEvent_priority (prev nw : MediaMetadata) :
    (prev.is_different nw = true → diffEvent prev nw = some (.mediaChanged nw)) ∧
    (prev.is_different nw = false → prev.state ≠ nw.state →
      diffEvent prev nw = some (.stateChanged nw.state)) ∧
    (prev.is_different nw = false → prev.state = nw.state → nw.state = .playing →
      diffEvent prev nw = some (.progressChanged nw.elapsed)) ∧
    (prev.is_different nw = false → prev.state = nw.state → nw.state ≠ .playing →
      diffEvent prev nw = none) := by
  refine ⟨?_, ?_, ?_, ?_⟩ <;>
    · intros
      simp_all [diffEvent]

/-- Witness for claim C9 at concrete snapshot pairs: identical idle
snapshots yield no event; a pure state change yields `StateChanged`. -/
theorem c9_diffEvent_priority_witness :
    diffEvent {} {} = none ∧
    diffEvent {} { state := .playing } = some (.stateChanged .playing) :=
  ⟨(c9_diffEvent_priority {} {}).2.2.2 (by decide) rfl (by decide),
   (c9_diffEvent_priority {} { state := .playing }).2.1 (by decide) (by decide)⟩

/-- A hybrid listener with both backends open over the given snapshots. -/
def mkHybrid (prio : MediaSourcePriority) (lp : LastPlayed)
    (s w : MediaMetadata) : MediaListener where
  system := some { closed := false, metadata := s }
  websocket := some { closed := false, metadata := w }
  last_played := lp
  cfg := { priority := prio }

/-- The snapshot belonging to the remembered `last_played` backend. -/
def pickLast (lp : LastPlayed) (system websocket : MediaMetadata) : MediaMetadata :=
  match lp with
  | .websocket => websocket
  | .system => system

/-- When neither backend's snapshot reports Playing, `poll` answers with the
`last_played` backend's snapshot and leaves `last_played` unchanged. -/
theorem poll_hybrid_neither_playing (prio : MediaSourcePriority) (lp : LastPlayed)
    (s w : MediaMetadata) (hs : s.state ≠ .playing) (hw : w.state ≠ .playing) :
    (mkHybrid prio lp s w).poll = .ok (pickLast lp s w, lp) := by
  cases prio <;> cases lp <;>
    cases h1 : s.state <;> cases h2 : w.state <;>
      simp_all [MediaListener.poll, mkHybrid, Backend.poll, pickLast]

/-- Claim C10: across two consecutive hybrid polls during which neither
backend reports Playing, each call returns the snapshot of the backend
remembered in `last_played` and keeps `last_played` unchanged, so the
winning source is the same on both calls and never oscillates. -/
theorem c10_no_oscillation_when_neither_playing
    (prio : MediaSourcePriority) (lp : LastPlayed) (s1 w1 s2 w2 : MediaMetadata)
    (hs1 : s1.state ≠ .playing) (hw1 : w1.state ≠ .playing)
    (hs2 : s2.state ≠ .playing) (hw2 : w2.state ≠ .playing) :
    (mkHybrid prio lp s1 w1).poll = .ok (pickLast lp s1 w1, lp) ∧
    (mkHybrid prio lp s2 w2).poll = .ok (pickLast lp s2 w2, lp) :=
  ⟨poll_hybrid_neither_playing prio lp s1 w1 hs1 hw1,
   poll_hybrid_neither_playing prio lp s2 w2 hs2 hw2⟩

/-- An idle (paused) system snapshot for the first poll. -/
def idleSys1 : MediaMetadata := { state := .paused, title := "s1" }

/-- An idle (stopped) websocket snapshot for the first poll. -/
def idleWs1 : MediaMetadata := { state := .stopped, title := "w1" }

/-- An idle system snapshot for the second poll. -/
def idleSys2 : MediaMetadata := { state := .stopped, title := "s2" }

/-- An idle websocket snapshot for the second poll. -/
def idleWs2 : MediaMetadata := { state := .paused, title := "w2" }

/-- Witness for claim C10 at concrete idle snapshots under System priority
with Websocket remembered as last played. -/
theorem c10_no_oscillation_witness :
    (mkHybrid .system .websocket idleSys1 idleWs1).poll =
      .ok (pickLast .websocket idleSys1 idleWs1, .websocket) ∧
    (mkHybrid .system .websocket idleSys2 idleWs2).poll =
      .ok (pickLast .websocket idleSys2 idleWs2, .websocket) :=
  c10_no_oscillation_when_neither_playing .system .websocket
    idleSys1 idleWs1 idleSys2 idleWs2
    (by decide) (by decide) (by decide) (by decide)
